import Mathlib

/-!
Shallow embedding of the spark-lifestyle-backend booking engine
(src/index.js, hardened revision unless noted otherwise).

Slot labels are the strings produced by date-fns `format(t, 'HH:mm')`;
instants are integers counted in minutes; the SAST display offset is the
fixed +120 minutes the code adds via `addMinutes(t, 120)`.
-/

namespace Spark

/-- One decimal digit as a character, as in zero-padded `HH:mm` output. -/
def digitChar (n : Nat) : Char := Char.ofNat (48 + n)

/-- date-fns `format(t, 'HH:mm')` applied to a minute-of-day value:
two zero-padded hour digits, a colon, two zero-padded minute digits. -/
def formatHHMM (m : Nat) : String :=
  String.mk [digitChar (m / 60 / 10), digitChar (m / 60 % 10), ':',
             digitChar (m % 60 / 10), digitChar (m % 60 % 10)]

/-- Minute-of-day of an absolute instant measured in minutes. -/
def minutesOfDay (t : Int) : Nat := (t % 1440).toNat

/-- `openingHourUTC = 6` from the availability route. -/
def openingMinuteUTC : Nat := 6 * 60

/-- `closingHourUTC = 14` from the availability route. -/
def closingMinuteUTC : Nat := 14 * 60

/-- `slotInterval = 15` from the availability route. -/
def slotInterval : Nat := 15

/-- The fixed `addMinutes(-, 120)` SAST display offset. -/
def sastOffsetMinutes : Nat := 120

/-- The slot-generation `while (currentTime < closingDateTime)` loop:
push `format(addMinutes(currentTime, 120), 'HH:mm')`, advance by the
interval.  `fuel` bounds the iteration count (96 covers a full day at
15-minute steps). -/
def slotLoopAux : Nat → Nat → List String
  | 0, _ => []
  | fuel + 1, cur =>
    if cur < closingMinuteUTC then
      formatHHMM ((cur + sastOffsetMinutes) % 1440) :: slotLoopAux fuel (cur + slotInterval)
    else []

/-- `allSlots` as built by the availability route for the fixed window. -/
def allSlotsGrid : List String := slotLoopAux 96 openingMinuteUTC

/-- Outcome of the JavaScript expression
`(daily.exists && daily.data()?.activeBays) ?? (global.exists && global.data()?.activeBays) ?? 2`:
either a number, or the JavaScript boolean `false` (which `??` does not
replace because it is not nullish). -/
inductive JsBays where
  | num (n : Int)
  | fls
deriving DecidableEq

/-- The hardened revision's `activeBays` resolution (availability and
verify-slot routes).  A settings document is `none` when absent and
`some f` when present, where `f` is its optional `activeBays` field. -/
def resolveActiveBays (daily global : Option (Option Int)) : JsBays :=
  match daily with
  | some (some n) => .num n
  | some none =>
    match global with
    | some (some m) => .num m
    | some none => .num 2
    | none => .fls
  | none => .fls

/-- Revision 2's `activeBays` resolution:
`daily.exists ? daily.data().activeBays : (global.exists ? global.data().activeBays : 2)`. -/
def resolveActiveBaysRev2 (daily global : Option (Option Int)) : Option Int :=
  match daily with
  | some f => f
  | none =>
    match global with
    | some f => f
    | none => some 2

/-- JavaScript `count >= activeBays` for a booking count and a resolved
bays value (`n >= false` coerces `false` to `0`, hence always holds). -/
def jsGe (n : Nat) : JsBays → Bool
  | .num m => (n : Int) ≥ m
  | .fls => true

/-- A booking as the occupancy loop reads it: `startTime` instant in
minutes and the referenced `serviceId`. -/
structure OccBooking where
  startTime : Int
  serviceId : String
deriving DecidableEq

/-- The consecutive slot labels one booking occupies:
`Math.max(1, Math.ceil(duration / slotInterval))` labels starting at
`format(addMinutes(startTime, 120), 'HH:mm')`, stepping 15 minutes. -/
def bookingSlots (duration : Nat) (startTime : Int) : List String :=
  (List.range (max 1 ((duration + 14) / 15))).map
    (fun (i : Nat) => formatHHMM (minutesOfDay (startTime + 15 * (i : Int) + 120)))

/-- `occupiedSlotCounts[l] = (occupiedSlotCounts[l] || 0) + 1`. -/
def bumpSlot (occ : String → Nat) (l : String) : String → Nat :=
  fun x => if x = l then occ l + 1 else occ x

/-- The hardened revision's occupancy loop: bookings with an empty
`serviceId` are skipped; otherwise the duration is
`serviceDurations[sid] ?? 15` and every occupied label's counter is
incremented. -/
def occupancyCompute (durations : String → Option Nat) (bs : List OccBooking) :
    String → Nat :=
  bs.foldl
    (fun occ b =>
      if b.serviceId = "" then occ
      else (bookingSlots ((durations b.serviceId).getD 15) b.startTime).foldl bumpSlot occ)
    (fun _ => 0)

/-- The availability result: keep the slots whose occupancy is below
`activeBays` and that are not blocked; when the requested date is today,
additionally keep only labels strictly after the current SAST
time-of-day (JavaScript string comparison on `HH:mm` labels). -/
def availableSlotsCalc (allSlots : List String) (occupied : String → Nat)
    (activeBays : Int) (blocked : List String) (isToday : Bool) (nowLabel : String) :
    List String :=
  let base := allSlots.filter
    (fun s => decide ((occupied s : Int) < activeBays) && !(blocked.contains s))
  if isToday then base.filter (fun s => decide (nowLabel < s)) else base

/-- A booking document as written by the booking routes. -/
structure Booking where
  userId : String
  serviceId : String
  startTime : Int
  status : String
  createdAt : Int
  bayId : Nat
deriving DecidableEq

/-- A per-location rewards entry `{loyaltyPoints, freeWashes}`. -/
structure Rewards where
  loyaltyPoints : Int
  freeWashes : Int
deriving DecidableEq

/-- Association-list lookup (document get-by-key). -/
def alookup {α : Type} : List (String × α) → String → Option α
  | [], _ => none
  | (k', v) :: rest, k => if k = k' then some v else alookup rest k

/-- Association-list set (document set / merge-by-key). -/
def aset {α : Type} : List (String × α) → String → α → List (String × α)
  | [], k, v => [(k, v)]
  | (k', v') :: rest, k, v =>
    if k = k' then (k, v) :: rest else (k', v') :: aset rest k v

/-- The slice of the document store the booking routes touch:
per-location booking documents and user profiles (their rewards maps). -/
structure Store where
  bookings : List (String × Booking)
  users : List (String × List (String × Rewards))
deriving DecidableEq

/-- The `where('startTime', '==', t)` count on a location's bookings. -/
def countAt (st : Store) (locationId : String) (t : Int) : Nat :=
  (st.bookings.filter (fun p => p.1 == locationId && p.2.startTime == t)).length

/-- The rejected prototype-polluting location identifiers. -/
def badLocIds : List String := ["__proto__", "constructor", "prototype"]

/-- One rewards accrual (booking commit): add a point; on reaching 10,
reset the points to 0 and grant one free wash. -/
def accruePoint (r : Rewards) : Rewards :=
  if r.loyaltyPoints + 1 ≥ 10 then { loyaltyPoints := 0, freeWashes := r.freeWashes + 1 }
  else { r with loyaltyPoints := r.loyaltyPoints + 1 }

/-- The free-wash debit as the redeem route performs it: guarded by
`freeWashes >= 1`, then `FieldValue.increment(-1)`; no mutation when the
guard fails. -/
def redeemDebit (r : Rewards) : Rewards :=
  if r.freeWashes ≥ 1 then { r with freeWashes := r.freeWashes - 1 } else r

/-- One ledger operation: a paid-booking accrual or a redemption. -/
inductive RewardOp where
  | accrue
  | redeem

def applyRewardOp (r : Rewards) : RewardOp → Rewards
  | .accrue => accruePoint r
  | .redeem => redeemDebit r

/-- The rewards entry a fresh profile starts from. -/
def freshRewards : Rewards := ⟨0, 0⟩

/-- The ledger after a sequence of operations on a fresh profile. -/
def runRewardOps (ops : List RewardOp) : Rewards := ops.foldl applyRewardOp freshRewards

/-- A booking-commit / redemption request body. -/
structure BookingReq where
  userId : String
  serviceId : String
  startTime : String
  locationId : String
deriving DecidableEq

/-- POST /api/bookings (hardened revision): validate, convert the
requested start time (`subHours(new Date(startTime), 2)`), count
same-instant bookings, persist the booking with `bayId = count + 1`,
then accrue a loyalty point on the (lazily created) user profile.
`parse` stands for JavaScript `new Date` on the request string, in
minutes. -/
def commitBooking (parse : String → Int) (now : Int) (st : Store) (r : BookingReq) :
    Nat × Store :=
  if r.userId == "" || r.serviceId == "" || r.startTime == "" || r.locationId == "" then
    (400, st)
  else if badLocIds.contains r.locationId then (400, st)
  else
    let t := parse r.startTime - 120
    let c := countAt st r.locationId t
    let nb : Booking := ⟨r.userId, r.serviceId, t, "paid", now, c + 1⟩
    let st1 : Store := { st with bookings := st.bookings ++ [(r.locationId, nb)] }
    let prof := (alookup st1.users r.userId).getD []
    let lr := (alookup prof r.locationId).getD freshRewards
    let prof' := aset prof r.locationId (accruePoint lr)
    (201, { st1 with users := aset st1.users r.userId prof' })

/-- POST /api/bookings/verify-slot (hardened revision): the advisory
capacity check.  `daily`/`global` are the two settings documents read
for the request's date key; nothing is ever written. -/
def verifySlot (parse : String → Int) (daily global : Option (Option Int))
    (st : Store) (startTime locationId : String) : Nat × Store :=
  if startTime == "" || locationId == "" then (400, st)
  else if badLocIds.contains locationId then (400, st)
  else
    let t := parse startTime - 120
    if jsGe (countAt st locationId t) (resolveActiveBays daily global) then (409, st)
    else (200, st)

/-- POST /api/bookings/redeem-free-wash (hardened revision): requires an
existing profile with a rewards entry for the location holding at least
one free wash; then persists a `status='free'`, `bayId=1` booking and
decrements the balance by one. -/
def redeemFreeWash (parse : String → Int) (now : Int) (st : Store) (r : BookingReq) :
    Nat × Store :=
  if r.userId == "" || r.serviceId == "" || r.startTime == "" || r.locationId == "" then
    (400, st)
  else if badLocIds.contains r.locationId then (400, st)
  else
    match alookup st.users r.userId with
    | none => (403, st)
    | some prof =>
      match alookup prof r.locationId with
      | none => (403, st)
      | some lr =>
        if lr.freeWashes ≥ 1 then
          let t := parse r.startTime - 120
          let nb : Booking := ⟨r.userId, r.serviceId, t, "free", now, 1⟩
          let prof' := aset prof r.locationId { lr with freeWashes := lr.freeWashes - 1 }
          (201, { bookings := st.bookings ++ [(r.locationId, nb)],
                  users := aset st.users r.userId prof' })
        else (403, st)

/-- The free-wash balance as the redeem route reads it. -/
def freeWashesAt (st : Store) (uid loc : String) : Option Int :=
  (alookup st.users uid).bind (fun prof => (alookup prof loc).map Rewards.freeWashes)

/-- POST /api/manager/blocked-slots: document id `date_slot`; the
document (content `{date, slot}`) is deleted when present and created
when absent.  The store is the map from document ids to contents. -/
def toggleBlockedSlot (blocked : String → Option (String × String)) (date slot : String) :
    String → Option (String × String) :=
  let slotId := date ++ "_" ++ slot
  match blocked slotId with
  | some _ => fun k => if k = slotId then none else blocked k
  | none => fun k => if k = slotId then some (date, slot) else blocked k

end Spark

namespace Spark

/-- digit characters are distinct for distinct digits. -/
theorem digitChar_inj : ∀ x < 10, ∀ y < 10, digitChar x = digitChar y → x = y := by
  decide

/-- `formatHHMM` is injective on minute-of-day values. -/
theorem formatHHMM_inj {a b : Nat} (ha : a < 1440) (hb : b < 1440)
    (h : formatHHMM a = formatHHMM b) : a = b := by
  have hlist : [digitChar (a / 60 / 10), digitChar (a / 60 % 10), ':',
      digitChar (a % 60 / 10), digitChar (a % 60 % 10)] =
      [digitChar (b / 60 / 10), digitChar (b / 60 % 10), ':',
      digitChar (b % 60 / 10), digitChar (b % 60 % 10)] := by
    simpa [formatHHMM] using congrArg String.data h
  have h1 : digitChar (a / 60 / 10) = digitChar (b / 60 / 10) := by
    simpa using congrArg (fun l => l.get? 0) hlist
  have h2 : digitChar (a / 60 % 10) = digitChar (b / 60 % 10) := by
    simpa using congrArg (fun l => l.get? 1) hlist
  have h3 : digitChar (a % 60 / 10) = digitChar (b % 60 / 10) := by
    simpa using congrArg (fun l => l.get? 3) hlist
  have h4 : digitChar (a % 60 % 10) = digitChar (b % 60 % 10) := by
    simpa using congrArg (fun l => l.get? 4) hlist
  have e1 : a / 60 / 10 = b / 60 / 10 :=
    digitChar_inj _ (by omega) _ (by omega) h1
  have e2 : a / 60 % 10 = b / 60 % 10 :=
    digitChar_inj _ (by omega) _ (by omega) h2
  have e3 : a % 60 / 10 = b % 60 / 10 :=
    digitChar_inj _ (by omega) _ (by omega) h3
  have e4 : a % 60 % 10 = b % 60 % 10 :=
    digitChar_inj _ (by omega) _ (by omega) h4
  omega

/-- C7: for the program's operating window (06:00–14:00 UTC, 15-minute
interval) the generated slot sequence has length `(close − open)/interval
= 32` and is strictly increasing in `HH:mm` label order (hence has no
duplicate labels). -/
theorem slotGrid_strictMono_length :
    allSlotsGrid.length = 32 ∧ allSlotsGrid.Pairwise (fun a b => a < b) := by
  refine ⟨by decide, ?_⟩
  have h : allSlotsGrid.Pairwise (fun a b => a.data < b.data) := by decide
  exact h.imp (fun hab => String.lt_iff_toList_lt.mpr hab)

/-- C2: when the daily-override settings document is absent and the
global document is present with `activeBays = 3`, the hardened
revision's resolution `(daily.exists && …) ?? (global.exists && …) ?? 2`
evaluates to the JavaScript boolean `false` instead of the global value:
`false` makes `count >= activeBays` hold even for a count of `0`.
Revision 2's ternary resolution returns `3` as the claim states. -/
theorem resolveActiveBays_missing_daily_eval :
    resolveActiveBays none (some (some 3)) = JsBays.fls ∧
    resolveActiveBaysRev2 none (some (some 3)) = some 3 ∧
    jsGe 0 (resolveActiveBays none (some (some 3))) = true := by
  decide

theorem minutesOfDay_lt (t : Int) : minutesOfDay t < 1440 := by
  have h1 : t % 1440 < 1440 := Int.emod_lt_of_pos t (by norm_num)
  have h2 : 0 ≤ t % 1440 := Int.emod_nonneg t (by norm_num)
  simp only [minutesOfDay]
  omega

/-- The labels a single booking occupies are pairwise distinct as long
as the duration stays within one day. -/
theorem bookingSlots_nodup {d : Nat} (t : Int) (hd : d ≤ 1440) :
    (bookingSlots d t).Nodup := by
  refine List.Nodup.map_on ?_ (List.nodup_range _)
  intro i hi j hj hij
  rw [List.mem_range] at hi hj
  have hb : max 1 ((d + 14) / 15) ≤ 96 := by omega
  have hm : minutesOfDay (t + 15 * (i : Int) + 120) =
      minutesOfDay (t + 15 * (j : Int) + 120) :=
    formatHHMM_inj (minutesOfDay_lt _) (minutesOfDay_lt _) hij
  simp only [minutesOfDay] at hm
  omega

theorem bookingSlots_length {d : Nat} (t : Int) (hd : 1 ≤ d) :
    (bookingSlots d t).length = (d + 14) / 15 := by
  simp only [bookingSlots, List.length_map, List.length_range]
  omega

theorem foldl_bumpSlot_count (ls : List String) (occ : String → Nat) (x : String) :
    ls.foldl bumpSlot occ x = occ x + ls.count x := by
  induction ls generalizing occ with
  | nil => simp
  | cons l ls ih =>
    rw [List.foldl_cons, ih, List.count_cons]
    simp only [bumpSlot, beq_iff_eq]
    by_cases hx : x = l
    · subst hx
      simp only [eq_self_iff_true, if_true]
      omega
    · rw [if_neg hx, if_neg (fun h => hx h.symm), Nat.add_zero]

theorem occupancyCompute_append_count (durations : String → Option Nat)
    (bs : List OccBooking) (b : OccBooking) (d : Nat) (hsid : b.serviceId ≠ "")
    (hdur : (durations b.serviceId).getD 15 = d) (x : String) :
    occupancyCompute durations (bs ++ [b]) x =
      occupancyCompute durations bs x + (bookingSlots d b.startTime).count x := by
  unfold occupancyCompute
  rw [List.foldl_append, List.foldl_cons, List.foldl_nil, if_neg hsid, hdur,
    foldl_bumpSlot_count]

/-- C5: relative to a run without it, adding a booking whose service
exists with duration `d` (at most one day) increments the occupancy
count of each of its `ceil(d / 15)` consecutive slot labels (starting at
the label of its start time) by exactly 1, and changes no other label's
count. -/
theorem occupancy_add_booking (durations : String → Option Nat) (bs : List OccBooking)
    (b : OccBooking) (d : Nat) (hsid : b.serviceId ≠ "")
    (hdur : durations b.serviceId = some d) (hd1 : 1 ≤ d) (hd2 : d ≤ 1440) :
    (∀ x ∈ bookingSlots d b.startTime,
        occupancyCompute durations (bs ++ [b]) x = occupancyCompute durations bs x + 1) ∧
    (∀ x, x ∉ bookingSlots d b.startTime →
        occupancyCompute durations (bs ++ [b]) x = occupancyCompute durations bs x) ∧
    (bookingSlots d b.startTime).length = (d + 14) / 15 ∧
    (bookingSlots d b.startTime).Nodup := by
  have hget : (durations b.serviceId).getD 15 = d := by rw [hdur]; rfl
  have hnd := bookingSlots_nodup (d := d) b.startTime hd2
  refine ⟨?_, ?_, bookingSlots_length b.startTime hd1, hnd⟩
  · intro x hx
    rw [occupancyCompute_append_count durations bs b d hsid hget x,
      List.count_eq_one_of_mem hnd hx]
  · intro x hx
    rw [occupancyCompute_append_count durations bs b d hsid hget x,
      List.count_eq_zero.mpr hx, Nat.add_zero]

/-- C5 witness: a concrete 30-minute booking occupies the two labels
`09:00` and `09:15` once each and leaves `09:30` untouched. -/
theorem occupancy_add_booking_witness :
    occupancyCompute (fun _ => some 30) ([] ++ [⟨420, "s1"⟩]) "09:00" =
      occupancyCompute (fun _ => some 30) [] "09:00" + 1 ∧
    occupancyCompute (fun _ => some 30) ([] ++ [⟨420, "s1"⟩]) "09:15" =
      occupancyCompute (fun _ => some 30) [] "09:15" + 1 ∧
    occupancyCompute (fun _ => some 30) ([] ++ [⟨420, "s1"⟩]) "09:30" =
      occupancyCompute (fun _ => some 30) [] "09:30" := by
  obtain ⟨h1, h2, _, _⟩ :=
    occupancy_add_booking (fun _ => some 30) [] ⟨420, "s1"⟩ 30
      (by decide) rfl (by decide) (by decide)
  exact ⟨h1 "09:00" (by decide), h1 "09:15" (by decide), h2 "09:30" (by decide)⟩

/-- C6 counterexample: under the hardened revision a booking whose
referenced service is missing from the duration cache is *not* skipped:
it still increments the count of its start label (here `08:00`). -/
theorem occupancy_missing_service_counts_cex :
    occupancyCompute (fun _ => none) [⟨360, "svc"⟩] "08:00" = 1 ∧
    occupancyCompute (fun _ => none) ([] : List OccBooking) "08:00" = 0 := by
  decide

/-- C6 amended: a booking referencing a missing service is counted with
the default duration of 15 minutes (occupying exactly its start label)
instead of being skipped; only bookings with an empty `serviceId` field
are skipped. -/
theorem occupancy_missing_service_default (durations : String → Option Nat)
    (bs : List OccBooking) (b : OccBooking) (hsid : b.serviceId ≠ "")
    (hmiss : durations b.serviceId = none) (x : String) :
    occupancyCompute durations (bs ++ [b]) x =
      occupancyCompute durations bs x +
        (if x = formatHHMM (minutesOfDay (b.startTime + 120)) then 1 else 0) := by
  have hget : (durations b.serviceId).getD 15 = 15 := by rw [hmiss]; rfl
  rw [occupancyCompute_append_count durations bs b 15 hsid hget x]
  congr 1
  have hr : List.range 1 = [0] := rfl
  have hb : bookingSlots 15 b.startTime = [formatHHMM (minutesOfDay (b.startTime + 120))] := by
    simp [bookingSlots, hr]
  rw [hb]
  simp only [List.count_cons, List.count_nil, beq_iff_eq, Nat.zero_add]
  by_cases hx : x = formatHHMM (minutesOfDay (b.startTime + 120))
  · subst hx
    simp
  · simp [hx, Ne.symm hx]

/-- C6 amended witness: concrete evaluation of the amended statement at
a booking starting at minute 360 whose service is missing. -/
theorem occupancy_missing_service_default_witness :
    occupancyCompute (fun _ => none) ([] ++ [⟨360, "svc"⟩]) "08:00" =
      occupancyCompute (fun _ => none) [] "08:00" +
        (if "08:00" = formatHHMM (minutesOfDay ((360 : Int) + 120)) then 1 else 0) :=
  occupancy_missing_service_default (fun _ => none) [] ⟨360, "svc"⟩
    (by decide) rfl "08:00"

/-- C4: a slot label appears in the availability result iff it is in the
generated grid, its occupancy count is strictly below the resolved
`activeBays`, it is not blocked, and (when the date is today) it is
strictly after the current SAST time-of-day; the result inherits the
grid's ascending label order. -/
theorem availableSlots_spec (allSlots : List String) (occupied : String → Nat)
    (activeBays : Int) (blocked : List String) (isToday : Bool) (nowLabel : String)
    (hsorted : allSlots.Pairwise (fun a b => a < b)) :
    (∀ s, s ∈ availableSlotsCalc allSlots occupied activeBays blocked isToday nowLabel ↔
      (s ∈ allSlots ∧ (occupied s : Int) < activeBays ∧ s ∉ blocked ∧
        (isToday = true → nowLabel < s))) ∧
    (availableSlotsCalc allSlots occupied activeBays blocked isToday nowLabel).Pairwise
      (fun a b => a < b) := by
  constructor
  · intro s
    cases isToday with
    | false =>
      simp [availableSlotsCalc, List.mem_filter, List.contains, List.elem_eq_mem,
        decide_eq_true_iff, and_assoc]
    | true =>
      simp [availableSlotsCalc, List.mem_filter, List.contains, List.elem_eq_mem,
        decide_eq_true_iff, and_assoc]
      tauto
  · cases isToday with
    | false =>
      exact hsorted.sublist (List.filter_sublist _)
    | true =>
      exact (hsorted.sublist (List.filter_sublist _)).sublist (List.filter_sublist _)

/-- C4 witness: concrete instance with a sorted two-label grid, one
blocked label, and the today cutoff disabled. -/
theorem availableSlots_spec_witness :
    "08:15" ∈ availableSlotsCalc ["08:00", "08:15"] (fun _ => 0) 2 ["08:00"] false "" ∧
    "08:00" ∉ availableSlotsCalc ["08:00", "08:15"] (fun _ => 0) 2 ["08:00"] false "" := by
  have hsorted : (["08:00", "08:15"] : List String).Pairwise (fun a b => a < b) := by
    have h : (["08:00", "08:15"] : List String).Pairwise (fun a b => a.data < b.data) := by
      decide
    exact h.imp (fun hab => String.lt_iff_toList_lt.mpr hab)
  have h := availableSlots_spec ["08:00", "08:15"] (fun _ => 0) 2 ["08:00"] false "" hsorted
  constructor
  · exact (h.1 "08:15").mpr ⟨by decide, by decide, by decide, by simp⟩
  · intro hmem
    exact absurd ((h.1 "08:00").mp hmem).2.2.1 (by decide)

/-- C3: starting from a fresh profile, any sequence of accruals and
guarded redemptions keeps `loyaltyPoints` in `[0, 9]` and `freeWashes`
nonnegative; an accrual from 9 points resets the points to 0 and grants
exactly one free wash. -/
theorem rewards_invariant :
    (∀ ops : List RewardOp,
      0 ≤ (runRewardOps ops).loyaltyPoints ∧ (runRewardOps ops).loyaltyPoints ≤ 9 ∧
        0 ≤ (runRewardOps ops).freeWashes) ∧
    (∀ fw : Int, accruePoint ⟨9, fw⟩ = ⟨0, fw + 1⟩) := by
  constructor
  · have step : ∀ (r : Rewards) (op : RewardOp),
        0 ≤ r.loyaltyPoints ∧ r.loyaltyPoints ≤ 9 ∧ 0 ≤ r.freeWashes →
        0 ≤ (applyRewardOp r op).loyaltyPoints ∧ (applyRewardOp r op).loyaltyPoints ≤ 9 ∧
          0 ≤ (applyRewardOp r op).freeWashes := by
      intro r op h
      obtain ⟨h1, h2, h3⟩ := h
      cases op with
      | accrue =>
        simp only [applyRewardOp, accruePoint]
        split
        · refine ⟨?_, ?_, ?_⟩
          · show (0 : Int) ≤ 0
            norm_num
          · show (0 : Int) ≤ 9
            norm_num
          · show 0 ≤ r.freeWashes + 1
            omega
        · refine ⟨?_, ?_, ?_⟩
          · show 0 ≤ r.loyaltyPoints + 1
            omega
          · show r.loyaltyPoints + 1 ≤ 9
            omega
          · exact h3
      | redeem =>
        simp only [applyRewardOp, redeemDebit]
        split
        · refine ⟨h1, h2, ?_⟩
          show 0 ≤ r.freeWashes - 1
          omega
        · exact ⟨h1, h2, h3⟩
    have main : ∀ (ops : List RewardOp) (r : Rewards),
        0 ≤ r.loyaltyPoints ∧ r.loyaltyPoints ≤ 9 ∧ 0 ≤ r.freeWashes →
        0 ≤ (ops.foldl applyRewardOp r).loyaltyPoints ∧
          (ops.foldl applyRewardOp r).loyaltyPoints ≤ 9 ∧
          0 ≤ (ops.foldl applyRewardOp r).freeWashes := by
      intro ops
      induction ops with
      | nil => intro r h; simpa using h
      | cons op ops ih =>
        intro r h
        rw [List.foldl_cons]
        exact ih _ (step r op h)
    intro ops
    exact main ops freshRewards ⟨by norm_num [freshRewards], by norm_num [freshRewards],
      by norm_num [freshRewards]⟩
  · intro fw
    simp [accruePoint]

/-- Concrete state for the C1 counterexample: location `L` already holds
one booking at instant 360 and the daily setting resolves `activeBays`
to 1. -/
def c1Store : Store := ⟨[("L", ⟨"u0", "s0", 360, "paid", 0, 1⟩)], []⟩

/-- Concrete commit request for the C1 counterexample. -/
def c1Req : BookingReq := ⟨"u", "s", "T", "L"⟩

/-- C1 counterexample: with one existing booking at the converted
instant and `activeBays = 1` (so `count >= activeBays` holds), the
commit route still answers 201 and persists a second booking — it never
fails with `SlotUnavailable`. -/
theorem commit_ignores_capacity_cex :
    jsGe (countAt c1Store "L" 360) (resolveActiveBays (some (some 1)) none) = true ∧
    (commitBooking (fun _ => 480) 0 c1Store c1Req).1 = 201 ∧
    ((commitBooking (fun _ => 480) 0 c1Store c1Req).2).bookings.length = 2 := by
  decide

/-- C1 amended: the commit route performs no capacity check — every
valid request persists exactly one booking with `bayId = count + 1` and
answers 201; the `count >= activeBays` admission check (409, nothing
persisted) is performed only by the separate verify-slot route. -/
theorem commit_and_verifySlot_spec (parse : String → Int) (now : Int) (st : Store)
    (r : BookingReq) (daily global : Option (Option Int))
    (hu : r.userId ≠ "") (hs : r.serviceId ≠ "") (ht : r.startTime ≠ "")
    (hl : r.locationId ≠ "") (hbad : r.locationId ∉ badLocIds) :
    (commitBooking parse now st r).1 = 201 ∧
    ((commitBooking parse now st r).2).bookings =
      st.bookings ++ [(r.locationId,
        ⟨r.userId, r.serviceId, parse r.startTime - 120, "paid", now,
          countAt st r.locationId (parse r.startTime - 120) + 1⟩)] ∧
    verifySlot parse daily global st r.startTime r.locationId =
      (if jsGe (countAt st r.locationId (parse r.startTime - 120))
          (resolveActiveBays daily global) then (409, st) else (200, st)) := by
  have h1 : (r.userId == "") = false := beq_eq_false_iff_ne.mpr hu
  have h2 : (r.serviceId == "") = false := beq_eq_false_iff_ne.mpr hs
  have h3 : (r.startTime == "") = false := beq_eq_false_iff_ne.mpr ht
  have h4 : (r.locationId == "") = false := beq_eq_false_iff_ne.mpr hl
  have hb : badLocIds.contains r.locationId = false := by
    simp [List.contains, List.elem_eq_mem, hbad]
  refine ⟨?_, ?_, ?_⟩
  · simp [commitBooking, h1, h2, h3, h4, hb, hbad]
  · simp [commitBooking, h1, h2, h3, h4, hb, hbad]
  · simp [verifySlot, h3, h4, hb, hbad]

/-- C1 amended witness: the amended statement evaluated at the
counterexample state. -/
theorem commit_and_verifySlot_spec_witness :
    (commitBooking (fun _ => 480) 0 c1Store c1Req).1 = 201 ∧
    ((commitBooking (fun _ => 480) 0 c1Store c1Req).2).bookings.length = 2 ∧
    verifySlot (fun _ => 480) (some (some 1)) none c1Store c1Req.startTime
      c1Req.locationId = (409, c1Store) := by
  have h := commit_and_verifySlot_spec (fun _ => 480) 0 c1Store c1Req (some (some 1)) none
    (by decide) (by decide) (by decide) (by decide) (by decide)
  refine ⟨h.1, ?_, ?_⟩
  · rw [h.2.1]
    decide
  · rw [h.2.2]
    decide

/-- C8: a redemption with fewer than one free wash for the location
(including a missing profile or missing entry) answers 403 and leaves
the store untouched; with a balance of at least one it persists exactly
one `status='free'`, `bayId=1` booking and decrements `freeWashes` by
exactly 1, leaving `loyaltyPoints` unchanged. -/
theorem redeemFreeWash_spec (parse : String → Int) (now : Int) (st : Store)
    (r : BookingReq)
    (hu : r.userId ≠ "") (hs : r.serviceId ≠ "") (ht : r.startTime ≠ "")
    (hl : r.locationId ≠ "") (hbad : r.locationId ∉ badLocIds) :
    ((freeWashesAt st r.userId r.locationId).getD 0 < 1 →
      redeemFreeWash parse now st r = (403, st)) ∧
    (∀ prof lr, alookup st.users r.userId = some prof →
      alookup prof r.locationId = some lr → 1 ≤ lr.freeWashes →
      redeemFreeWash parse now st r =
        (201, ⟨st.bookings ++ [(r.locationId,
            ⟨r.userId, r.serviceId, parse r.startTime - 120, "free", now, 1⟩)],
          aset st.users r.userId
            (aset prof r.locationId ⟨lr.loyaltyPoints, lr.freeWashes - 1⟩)⟩)) := by
  have h1 : (r.userId == "") = false := beq_eq_false_iff_ne.mpr hu
  have h2 : (r.serviceId == "") = false := beq_eq_false_iff_ne.mpr hs
  have h3 : (r.startTime == "") = false := beq_eq_false_iff_ne.mpr ht
  have h4 : (r.locationId == "") = false := beq_eq_false_iff_ne.mpr hl
  have hb : badLocIds.contains r.locationId = false := by
    simp [List.contains, List.elem_eq_mem, hbad]
  constructor
  · intro hlt
    cases hup : alookup st.users r.userId with
    | none => simp [redeemFreeWash, h1, h2, h3, h4, hb, hbad, hup]
    | some prof =>
      cases hlp : alookup prof r.locationId with
      | none => simp [redeemFreeWash, h1, h2, h3, h4, hb, hbad, hup, hlp]
      | some lr =>
        have hfw : lr.freeWashes < 1 := by
          simpa [freeWashesAt, hup, hlp] using hlt
        simp [redeemFreeWash, h1, h2, h3, h4, hb, hbad, hup, hlp, hfw, not_le.mpr hfw]
  · intro prof lr hup hlp hge
    simp [redeemFreeWash, h1, h2, h3, h4, hb, hbad, hup, hlp, hge]

/-- Concrete profile state for the C8 witness: user `u` holds 2 free
washes at location `L`. -/
def c8Store : Store := ⟨[], [("u", [("L", ⟨3, 2⟩)])]⟩

/-- Concrete redemption request for the C8 witness. -/
def c8Req : BookingReq := ⟨"u", "s", "T", "L"⟩

/-- C8 witness: both branches of the redemption contract evaluated on
concrete stores (an empty store, and one holding a balance of 2). -/
theorem redeemFreeWash_spec_witness :
    redeemFreeWash (fun _ => 480) 0 ⟨[], []⟩ c8Req = (403, ⟨[], []⟩) ∧
    redeemFreeWash (fun _ => 480) 0 c8Store c8Req =
      (201, ⟨[("L", ⟨"u", "s", 360, "free", 0, 1⟩)], [("u", [("L", ⟨3, 1⟩)])]⟩) := by
  have h0 := redeemFreeWash_spec (fun _ => 480) 0 ⟨[], []⟩ c8Req
    (by decide) (by decide) (by decide) (by decide) (by decide)
  have h := redeemFreeWash_spec (fun _ => 480) 0 c8Store c8Req
    (by decide) (by decide) (by decide) (by decide) (by decide)
  constructor
  · exact h0.1 (by decide)
  · have hs := h.2 [("L", ⟨3, 2⟩)] ⟨3, 2⟩ (by decide) (by decide) (by decide)
    rw [hs]
    decide

/-- C9: posting the blocked-slot toggle twice for the same `(date,
slot)` returns the set of existing blocked-slot documents to its
original state, from any starting state. -/
theorem toggleBlockedSlot_involutive (blocked : String → Option (String × String))
    (date slot : String) (k : String) :
    ((toggleBlockedSlot (toggleBlockedSlot blocked date slot) date slot) k).isSome =
      (blocked k).isSome := by
  cases hb : blocked (date ++ "_" ++ slot) with
  | none =>
    have h1 : toggleBlockedSlot blocked date slot (date ++ "_" ++ slot) =
        some (date, slot) := by
      simp [toggleBlockedSlot, hb]
    by_cases hk : k = date ++ "_" ++ slot
    · subst hk
      simp [toggleBlockedSlot, h1, hb]
    · simp [toggleBlockedSlot, h1, hb, hk]
  | some v =>
    have h1 : toggleBlockedSlot blocked date slot (date ++ "_" ++ slot) = none := by
      simp [toggleBlockedSlot, hb]
    by_cases hk : k = date ++ "_" ++ slot
    · subst hk
      simp [toggleBlockedSlot, h1, hb]
    · simp [toggleBlockedSlot, h1, hb, hk]

/-- C10: a commit or redemption request whose `locationId` is
`__proto__`, `constructor` or `prototype` is rejected with a 400
validation error and the store is left untouched, so the rewards map key
`rewards.${locationId}` can never be a prototype-polluting name. -/
theorem prototype_guard_spec (parse : String → Int) (now : Int) (st : Store)
    (r : BookingReq) (hbad : r.locationId ∈ badLocIds) :
    (commitBooking parse now st r).1 = 400 ∧ (commitBooking parse now st r).2 = st ∧
    (redeemFreeWash parse now st r).1 = 400 ∧ (redeemFreeWash parse now st r).2 = st := by
  have hc : badLocIds.contains r.locationId = true := by
    simp [List.contains, List.elem_eq_mem, hbad]
  cases hfields : (r.userId == "" || r.serviceId == "" || r.startTime == "" ||
      r.locationId == "") with
  | true =>
    refine ⟨?_, ?_, ?_, ?_⟩ <;> simp [commitBooking, redeemFreeWash, hfields]
  | false =>
    refine ⟨?_, ?_, ?_, ?_⟩ <;> simp [commitBooking, redeemFreeWash, hfields, hc, hbad]

/-- C10 witness: the guard evaluated at a concrete `__proto__` request. -/
theorem prototype_guard_spec_witness :
    (commitBooking (fun _ => 480) 0 ⟨[], []⟩ ⟨"u", "s", "T", "__proto__"⟩).1 = 400 ∧
    (commitBooking (fun _ => 480) 0 ⟨[], []⟩ ⟨"u", "s", "T", "__proto__"⟩).2 = ⟨[], []⟩ ∧
    (redeemFreeWash (fun _ => 480) 0 ⟨[], []⟩ ⟨"u", "s", "T", "__proto__"⟩).1 = 400 ∧
    (redeemFreeWash (fun _ => 480) 0 ⟨[], []⟩ ⟨"u", "s", "T", "__proto__"⟩).2 = ⟨[], []⟩ :=
  prototype_guard_spec (fun _ => 480) 0 ⟨[], []⟩ ⟨"u", "s", "T", "__proto__"⟩ (by decide)

end Spark
